import Mathlib

/-!
Verification development for the Bindu task/context persistence engine and
retry/resilience framework.  The repository's visible sources are its unit
tests; the core components (Serialization Codec, Connection Manager, Retry
Policy Engine, Task Repository, Context Repository) are embedded here as
executable Lean definitions modelled from the design specification, with the
unit tests fixing concrete behaviours (error kinds, messages, URL forms).
-/

/-- Modelled from the spec: the error taxonomy of §7 together with the concrete
Python exception classes exercised by the unit tests.  Each error value carries
its kind (the constructor) and its message, so "re-raise the original error
unchanged (same error kind and message)" is equality of `PyErr` values. -/
inductive PyErr where
  | connectionError (msg : String)
  | timeoutError (msg : String)
  | asyncioTimeoutError (msg : String)
  | runtimeError (msg : String)
  | typeError (msg : String)
  | valueError (msg : String)
  | keyError (msg : String)
deriving DecidableEq, Repr

/-- Modelled from the spec: `is_retryable_error` from `bindu.utils.retry`
(module absent from the visible sources).  §7 classifies transient store
errors (connection dropped, operational timeout) as the retryable class; the
unit tests pin the concrete classes `ConnectionError`, `TimeoutError` and
`asyncio.TimeoutError`.  Validation, not-initialized and connection-setup
errors are fatal and never retried. -/
def is_retryable_error : PyErr → Bool
  | .connectionError _ => true
  | .timeoutError _ => true
  | .asyncioTimeoutError _ => true
  | _ => false

/-- Modelled from the spec: a retry policy `{max_attempts, min_wait, max_wait}`
(§4.3).  Wait bounds are carried for fidelity; real-time backoff is not
observable in the pure model. -/
structure RetryPolicy where
  max_attempts : Nat
  min_wait : Rat
  max_wait : Rat
deriving DecidableEq, Repr

/-- Modelled from the spec: the four named default policies of §4.3. -/
def worker_policy : RetryPolicy := ⟨3, 1, 10⟩

/-- Modelled from the spec: storage operation default policy (§4.3). -/
def storage_policy : RetryPolicy := ⟨5, 1 / 2, 5⟩

/-- Modelled from the spec: scheduler operation default policy (§4.3). -/
def scheduler_policy : RetryPolicy := ⟨3, 1, 8⟩

/-- Modelled from the spec: outbound API call default policy (§4.3). -/
def api_policy : RetryPolicy := ⟨4, 1, 15⟩

/-- Modelled from the spec: the retry loop of the Retry Policy Engine (§4.3),
from `execute_with_retry` in `bindu.utils.retry` (module absent from the
visible sources).  The fallible operation is a function from the attempt
number (1-based) to its outcome.  `attempt` is the current attempt number,
`remaining` the number of attempts still allowed.  On the final allowed
attempt the operation's outcome — success or the original error — is returned
as is; earlier, a retryable failure leads to a further attempt while a
non-retryable failure is re-raised unchanged.  The second component counts
how many times the operation was invoked. -/
def retryFrom (op : Nat → Except PyErr α) : Nat → Nat → Except PyErr α × Nat
  | _, 0 => (.error (.runtimeError "retry requested with zero attempts"), 0)
  | attempt, 1 => (op attempt, 1)
  | attempt, remaining + 2 =>
    match op attempt with
    | .ok a => (.ok a, 1)
    | .error e =>
      if is_retryable_error e then
        let r := retryFrom op (attempt + 1) (remaining + 1)
        (r.1, r.2 + 1)
      else
        (.error e, 1)

/-- Modelled from the spec: `execute_with_retry(func, ..., max_attempts,
min_wait, max_wait)` (§4.3).  Returns the final outcome paired with the
number of invocations of the operation. -/
def execute_with_retry (op : Nat → Except PyErr α) (max_attempts : Nat)
    (min_wait max_wait : Rat) : Except PyErr α × Nat :=
  retryFrom op 1 max_attempts

/-- Unique identifiers are modelled as an opaque countable id space. -/
abbrev UUID := Nat

/-- Modelled from the spec: the canonical string representation of a unique
identifier (Python `str(uuid)`), an injective rendering into strings. -/
def uuidCanonical (u : UUID) : String := toString u

/-- Modelled from the spec: the in-memory domain values crossing the storage
boundary — mappings, ordered sequences, unique identifiers, and primitives
(strings, numbers, booleans, null) (§4.1). -/
inductive JsonValue where
  | str (s : String)
  | int (n : Int)
  | bool (b : Bool)
  | null
  | uuid (u : UUID)
  | dict (entries : List (String × JsonValue))
  | list (elems : List JsonValue)

mutual

/-- Modelled from the spec: `_serialize_for_jsonb` from
`bindu.server.storage.postgres_storage` (module absent from the visible
sources).  Replaces every unique-identifier value by its canonical string
form, recursively, inside mapping values and sequence elements; primitives
pass through unchanged (§4.1). -/
def _serialize_for_jsonb : JsonValue → JsonValue
  | .uuid u => .str (uuidCanonical u)
  | .dict entries => .dict (serializeEntries entries)
  | .list elems => .list (serializeElems elems)
  | .str s => .str s
  | .int n => .int n
  | .bool b => .bool b
  | .null => .null

/-- Recursion of `_serialize_for_jsonb` through mapping entries. -/
def serializeEntries : List (String × JsonValue) → List (String × JsonValue)
  | [] => []
  | (k, v) :: rest => (k, _serialize_for_jsonb v) :: serializeEntries rest

/-- Recursion of `_serialize_for_jsonb` through sequence elements. -/
def serializeElems : List JsonValue → List JsonValue
  | [] => []
  | v :: rest => _serialize_for_jsonb v :: serializeElems rest

end

mutual

/-- Whether a value contains a raw unique-identifier anywhere inside it. -/
def containsUUID : JsonValue → Bool
  | .uuid _ => true
  | .dict entries => entriesContainUUID entries
  | .list elems => elemsContainUUID elems
  | _ => false

/-- `containsUUID` over mapping entries. -/
def entriesContainUUID : List (String × JsonValue) → Bool
  | [] => false
  | (_, v) :: rest => containsUUID v || entriesContainUUID rest

/-- `containsUUID` over sequence elements. -/
def elemsContainUUID : List JsonValue → Bool
  | [] => false
  | v :: rest => containsUUID v || elemsContainUUID rest

end

/-- The canonical driver-qualified scheme, as a character sequence:
`"postgresql+asyncpg://"`. -/
def DRIVER_SCHEME : List Char :=
  ['p', 'o', 's', 't', 'g', 'r', 'e', 's', 'q', 'l', '+', 'a', 's', 'y',
   'n', 'c', 'p', 'g', ':', '/', '/']

/-- The generic database scheme, as a character sequence: `"postgresql://"`. -/
def GENERIC_SCHEME : List Char :=
  ['p', 'o', 's', 't', 'g', 'r', 'e', 's', 'q', 'l', ':', '/', '/']

/-- Whether the character sequence `cs` starts with the scheme `p`. -/
def startsWith : List Char → List Char → Bool
  | [], _ => true
  | _ :: _, [] => false
  | p :: ps, c :: cs => p == c && startsWith ps cs

/-- Modelled from the spec: the Connection Manager's URL normalization rule
(§4.2), over store addresses as character sequences.  An address already
carrying the driver-qualified scheme is left unchanged; one carrying the
generic scheme has only the scheme segment rewritten; one lacking a
recognized scheme is prefixed with the driver-qualified scheme. -/
def normalize_database_url (url : List Char) : List Char :=
  if startsWith DRIVER_SCHEME url then url
  else if startsWith GENERIC_SCHEME url then
    DRIVER_SCHEME ++ url.drop GENERIC_SCHEME.length
  else
    DRIVER_SCHEME ++ url

/-- Modelled from the spec: the per-instance state of the Connection Manager
(`PostgresStorage`): the normalized store address, pool bounds and timeouts,
and the mutable engine / session-factory slots that are `none` exactly in the
`disconnected` state (§4.2).  The engine and session factory themselves are
external resources, modelled opaquely. -/
structure PostgresStorage where
  database_url : List Char
  pool_min : Nat
  pool_max : Nat
  timeout : Nat
  command_timeout : Nat
  _engine : Option Unit
  _session_factory : Option Unit
deriving DecidableEq, Repr

/-- Modelled from the spec: `PostgresStorage.__init__` — normalizes the store
address and starts in the `disconnected` state (§4.2). -/
def PostgresStorage.init (database_url : List Char) (pool_min pool_max timeout
    command_timeout : Nat) : PostgresStorage :=
  { database_url := normalize_database_url database_url
    pool_min := pool_min
    pool_max := pool_max
    timeout := timeout
    command_timeout := command_timeout
    _engine := none
    _session_factory := none }

/-- Modelled from the spec: `connect()` (§4.2) — establishes the pooled
engine and session factory and verifies reachability; the round-trip outcome
is an input of the model.  On failure a `ConnectionError` with a descriptive
message is raised and no usable engine state is left. -/
def PostgresStorage.connect (s : PostgresStorage) (reachable : Bool) :
    Except PyErr PostgresStorage :=
  if reachable then
    .ok { s with _engine := some (), _session_factory := some () }
  else
    .error (.connectionError "Failed to connect to PostgreSQL")

/-- Modelled from the spec: `disconnect()` (§4.2) — tears down the pool if
present and releases the session factory; a no-op when already disconnected;
never raises. -/
def PostgresStorage.disconnect (s : PostgresStorage) : PostgresStorage :=
  { s with _engine := none, _session_factory := none }

/-- The not-initialized error raised by the `_ensure_connected` guard: a
`RuntimeError`, distinct from connection failures (§4.2, §7). -/
def notInitError : PyErr := .runtimeError "PostgreSQL engine not initialized"

/-- Modelled from the spec: the Task lifecycle states of §4.4
(`input_required` renders as `"input-required"`). -/
inductive TaskState where
  | submitted
  | working
  | input_required
  | completed
  | failed
  | cancelled
deriving DecidableEq, Repr

/-- Modelled from the spec: the legal-transition table of the Task state
machine (§4.4). -/
def legal_transition : TaskState → TaskState → Bool
  | .submitted, .working => true
  | .working, .input_required => true
  | .input_required, .working => true
  | .working, .completed => true
  | .working, .failed => true
  | .submitted, .cancelled => true
  | .working, .cancelled => true
  | _, _ => false

/-- Modelled from the spec: a fetched Task row — `id`, `context_id`, `kind`,
`state`, `state_timestamp`, and the schema-less JSON columns `history`,
`artifacts` and `metadata`, which may be absent/null in the store (§6). -/
structure Row where
  id : UUID
  context_id : UUID
  kind : String
  state : TaskState
  state_timestamp : Nat
  history : Option (List JsonValue)
  artifacts : Option (List JsonValue)
  metadata : Option (List (String × JsonValue))

/-- Modelled from the spec: the `status` object nested in a domain Task —
the lifecycle state and the time it was entered (§3). -/
structure TaskStatus where
  state : TaskState
  timestamp : Nat

/-- Modelled from the spec: the domain Task shape (§3). -/
structure Bindu.Task where
  id : UUID
  context_id : UUID
  kind : String
  status : TaskStatus
  history : List JsonValue
  artifacts : List JsonValue
  metadata : List (String × JsonValue)

/-- Modelled from the spec: `_row_to_task` (§4.4) — maps `id`, `context_id`,
`kind` directly; nests `state` and `state_timestamp` into `status`; coerces
`history`/`artifacts` to ordered sequences and `metadata` to a mapping,
never null, even if the underlying column is empty. -/
def _row_to_task (row : Row) : Bindu.Task :=
  { id := row.id
    context_id := row.context_id
    kind := row.kind
    status := { state := row.state, timestamp := row.state_timestamp }
    history := row.history.getD []
    artifacts := row.artifacts.getD []
    metadata := row.metadata.getD [] }

/-- The relational store visible to the repositories: the Task table and the
set of Context ids. -/
structure DB where
  tasks : List Row
  contexts : List UUID

/-- Fetch the Task row with the given id, if any. -/
def findRow (db : DB) (tid : UUID) : Option Row :=
  db.tasks.find? (fun r => r.id == tid)

/-- Replace the Task row with the id of `row2` by `row2`. -/
def replaceRow (rows : List Row) (row2 : Row) : List Row :=
  rows.map (fun r => if r.id == row2.id then row2 else r)

/-- Modelled from the spec: the composed view returned by `load_context` —
the Context and the Tasks bound to it (§4.5). -/
structure ContextView where
  id : UUID
  tasks : List Bindu.Task

/-- Modelled from the spec: `load_task(task_id)` (§4.4).  Arguments arrive
dynamically typed, so the id is a `JsonValue`; a non-identifier id fails with
a `TypeError` before any I/O, a disconnected instance fails with the
not-initialized error before any I/O.  The second component counts store
round-trips attempted. -/
def load_task (s : PostgresStorage) (db : DB) (task_id : JsonValue) :
    Except PyErr Bindu.Task × Nat :=
  match task_id with
  | .uuid tid =>
    match s._engine with
    | none => (.error notInitError, 0)
    | some _ =>
      match findRow db tid with
      | some row => (.ok (_row_to_task row), 1)
      | none => (.error (.keyError "Task not found"), 1)
  | _ => (.error (.typeError "task_id must be UUID"), 0)

/-- Modelled from the spec: `submit_task(context_id, message)` (§4.4).
Validates the context id (TypeError before I/O otherwise), requires a
connected instance, then creates a Task row with `state = submitted`,
`history = [message]`, empty `artifacts` and `metadata`, and returns the
created Task.  `new_id` is the freshly assigned Task id and `now` the
creation time, both inputs of the model. -/
def submit_task (s : PostgresStorage) (db : DB) (context_id : JsonValue)
    (message : JsonValue) (new_id : UUID) (now : Nat) :
    Except PyErr (Bindu.Task × DB) × Nat :=
  match context_id with
  | .uuid cid =>
    match s._engine with
    | none => (.error notInitError, 0)
    | some _ =>
      let row : Row :=
        { id := new_id
          context_id := cid
          kind := "task"
          state := .submitted
          state_timestamp := now
          history := some [message]
          artifacts := some []
          metadata := some [] }
      (.ok (_row_to_task row, { db with tasks := row :: db.tasks }), 1)
  | _ => (.error (.typeError "context_id must be UUID"), 0)

/-- Modelled from the spec: `update_task_state(task_id, new_state)` (§4.4).
Validates the id, requires a connected instance, fetches the row, rejects a
transition not in the legal edge set, and on a legal transition updates
`state` and refreshes `state_timestamp` to the current time `now`. -/
def update_task_state (s : PostgresStorage) (db : DB) (task_id : JsonValue)
    (new_state : TaskState) (now : Nat) :
    Except PyErr (Bindu.Task × DB) × Nat :=
  match task_id with
  | .uuid tid =>
    match s._engine with
    | none => (.error notInitError, 0)
    | some _ =>
      match findRow db tid with
      | none => (.error (.keyError "Task not found"), 1)
      | some row =>
        if legal_transition row.state new_state then
          let row2 := { row with state := new_state, state_timestamp := now }
          (.ok (_row_to_task row2,
                { db with tasks := replaceRow db.tasks row2 }), 1)
        else
          (.error (.valueError "Invalid state transition"), 1)
  | _ => (.error (.typeError "task_id must be UUID"), 0)

/-- Modelled from the spec: `load_context(context_id)` (§4.5).  Validates the
identifier type, requires a connected instance, then fetches the Context row
plus its associated Tasks and returns the composed view. -/
def load_context (s : PostgresStorage) (db : DB) (context_id : JsonValue) :
    Except PyErr ContextView × Nat :=
  match context_id with
  | .uuid cid =>
    match s._engine with
    | none => (.error notInitError, 0)
    | some _ =>
      if db.contexts.contains cid then
        (.ok { id := cid
               tasks := (db.tasks.filter (fun r => r.context_id == cid)).map
                 _row_to_task }, 1)
      else
        (.error (.keyError "Context not found"), 1)
  | _ => (.error (.typeError "context_id must be UUID"), 0)


/-- A disconnected Connection Manager instance, fresh from `init`. -/
def storage0 : PostgresStorage :=
  PostgresStorage.init ("localhost:5432/db".toList) 1 10 30 60

/-- A connected Connection Manager instance. -/
def storage1 : PostgresStorage :=
  { storage0 with _engine := some (), _session_factory := some () }

/-- An empty store. -/
def db0 : DB := { tasks := [], contexts := [] }

/-- A fetched Task row in state `submitted` with empty `history`,
`artifacts` and `metadata` columns. -/
def exRow : Row :=
  { id := 1
    context_id := 2
    kind := "task"
    state := .submitted
    state_timestamp := 3
    history := some []
    artifacts := some []
    metadata := some [] }

/-- A store holding exactly the row `exRow`. -/
def db1 : DB := { tasks := [exRow], contexts := [2] }

theorem serializeEntries_eq_map (entries : List (String × JsonValue)) :
    serializeEntries entries
      = entries.map (fun p => (p.1, _serialize_for_jsonb p.2)) := by
  induction entries with
  | nil => simp [serializeEntries]
  | cons p rest ih => cases p with | mk k v => simp [serializeEntries, ih]

theorem serializeElems_eq_map (elems : List JsonValue) :
    serializeElems elems = elems.map _serialize_for_jsonb := by
  induction elems with
  | nil => simp [serializeElems]
  | cons v rest ih => simp [serializeElems, ih]

mutual

theorem serialize_noUUID :
    (v : JsonValue) → containsUUID (_serialize_for_jsonb v) = false
  | .str s => by simp [_serialize_for_jsonb, containsUUID]
  | .int n => by simp [_serialize_for_jsonb, containsUUID]
  | .bool b => by simp [_serialize_for_jsonb, containsUUID]
  | .null => by simp [_serialize_for_jsonb, containsUUID]
  | .uuid u => by simp [_serialize_for_jsonb, containsUUID]
  | .dict entries => by
    simp only [_serialize_for_jsonb, containsUUID]
    exact serializeEntries_noUUID entries
  | .list elems => by
    simp only [_serialize_for_jsonb, containsUUID]
    exact serializeElems_noUUID elems

theorem serializeEntries_noUUID :
    (es : List (String × JsonValue)) →
      entriesContainUUID (serializeEntries es) = false
  | [] => by simp [serializeEntries, entriesContainUUID]
  | (k, v) :: rest => by
    simp only [serializeEntries, entriesContainUUID, Bool.or_eq_false_iff]
    exact ⟨serialize_noUUID v, serializeEntries_noUUID rest⟩

theorem serializeElems_noUUID :
    (xs : List JsonValue) → elemsContainUUID (serializeElems xs) = false
  | [] => by simp [serializeElems, elemsContainUUID]
  | v :: rest => by
    simp only [serializeElems, elemsContainUUID, Bool.or_eq_false_iff]
    exact ⟨serialize_noUUID v, serializeElems_noUUID rest⟩

end

/-- C2: the Serialization Codec `_serialize_for_jsonb` is a total transform
that replaces every unique-identifier value by its canonical string form —
at any nesting depth inside mapping values and sequence elements, so the
output never contains a raw identifier — while primitives pass through
unchanged, the empty mapping maps to the empty mapping, and the empty
sequence maps to the empty sequence. -/
theorem serialization_codec_correct :
    (∀ u, _serialize_for_jsonb (.uuid u) = .str (uuidCanonical u))
    ∧ (∀ s, _serialize_for_jsonb (.str s) = .str s)
    ∧ (∀ n, _serialize_for_jsonb (.int n) = .int n)
    ∧ (∀ b, _serialize_for_jsonb (.bool b) = .bool b)
    ∧ _serialize_for_jsonb .null = .null
    ∧ _serialize_for_jsonb (.dict []) = .dict []
    ∧ _serialize_for_jsonb (.list []) = .list []
    ∧ (∀ entries, _serialize_for_jsonb (.dict entries)
        = .dict (entries.map (fun p => (p.1, _serialize_for_jsonb p.2))))
    ∧ (∀ elems, _serialize_for_jsonb (.list elems)
        = .list (elems.map _serialize_for_jsonb))
    ∧ (∀ v, containsUUID (_serialize_for_jsonb v) = false) := by
  refine ⟨fun u => by simp [_serialize_for_jsonb],
    fun s => by simp [_serialize_for_jsonb],
    fun n => by simp [_serialize_for_jsonb],
    fun b => by simp [_serialize_for_jsonb],
    by simp [_serialize_for_jsonb],
    by simp [_serialize_for_jsonb, serializeEntries],
    by simp [_serialize_for_jsonb, serializeElems],
    fun entries => by simp [_serialize_for_jsonb, serializeEntries_eq_map],
    fun elems => by simp [_serialize_for_jsonb, serializeElems_eq_map],
    serialize_noUUID⟩

/-- C4: URL normalization is exact — an address lacking a recognized scheme
is prefixed with the canonical driver-qualified scheme; an address with the
generic scheme has only the scheme segment rewritten (no double-prefixing);
an address already carrying the driver-qualified scheme is unchanged. -/
theorem url_normalization_exact :
    (∀ url : List Char, startsWith DRIVER_SCHEME url = false →
      startsWith GENERIC_SCHEME url = false →
      normalize_database_url url = DRIVER_SCHEME ++ url)
    ∧ (∀ url : List Char, startsWith DRIVER_SCHEME url = false →
      startsWith GENERIC_SCHEME url = true →
      normalize_database_url url
        = DRIVER_SCHEME ++ url.drop GENERIC_SCHEME.length)
    ∧ (∀ url : List Char, startsWith DRIVER_SCHEME url = true →
      normalize_database_url url = url) := by
  refine ⟨fun url h1 h2 => ?_, fun url h1 h2 => ?_, fun url h1 => ?_⟩
  · simp [normalize_database_url, h1, h2]
  · simp [normalize_database_url, h1, h2]
  · simp [normalize_database_url, h1]

/-- Witness for C4 at the concrete addresses of the unit tests. -/
theorem url_normalization_exact_witness :
    normalize_database_url ("localhost:5432/db".toList)
      = DRIVER_SCHEME ++ "localhost:5432/db".toList
    ∧ normalize_database_url ("postgresql://localhost:5432/db".toList)
      = DRIVER_SCHEME ++ "localhost:5432/db".toList
    ∧ normalize_database_url ("postgresql+asyncpg://localhost:5432/db".toList)
      = "postgresql+asyncpg://localhost:5432/db".toList := by
  refine ⟨url_normalization_exact.1 _ (by decide) (by decide), ?_,
    url_normalization_exact.2.2 _ (by decide)⟩
  have h := url_normalization_exact.2.1 ("postgresql://localhost:5432/db".toList)
    (by decide) (by decide)
  rw [h]
  decide

/-- C9: `disconnect()` is idempotent — it never raises (it is a total
function of the model), always leaves the instance disconnected with the
engine and session factory cleared, composing it with itself has the same
effect as a single call, and on a never-connected instance it is a no-op. -/
theorem disconnect_idempotent :
    (∀ s : PostgresStorage, s.disconnect._engine = none
      ∧ s.disconnect._session_factory = none)
    ∧ (∀ s : PostgresStorage, s.disconnect.disconnect = s.disconnect)
    ∧ (∀ url pmin pmax t ct,
        (PostgresStorage.init url pmin pmax t ct).disconnect
          = PostgresStorage.init url pmin pmax t ct) :=
  ⟨fun _ => ⟨rfl, rfl⟩, fun _ => rfl, fun _ _ _ _ _ => rfl⟩

/-- C10: the transient (retryable) error class is exactly decided by
`is_retryable_error`: it returns `true` precisely on the concrete classes
`ConnectionError`, `TimeoutError` and `asyncio.TimeoutError`, and `false` on
every other error kind of the taxonomy, so those three classes are the ones
every retry policy re-attempts. -/
theorem retryable_error_classes :
    (∀ m, is_retryable_error (.connectionError m) = true)
    ∧ (∀ m, is_retryable_error (.timeoutError m) = true)
    ∧ (∀ m, is_retryable_error (.asyncioTimeoutError m) = true)
    ∧ (∀ m, is_retryable_error (.runtimeError m) = false)
    ∧ (∀ m, is_retryable_error (.typeError m) = false)
    ∧ (∀ m, is_retryable_error (.valueError m) = false)
    ∧ (∀ m, is_retryable_error (.keyError m) = false) :=
  ⟨fun _ => rfl, fun _ => rfl, fun _ => rfl, fun _ => rfl, fun _ => rfl,
    fun _ => rfl, fun _ => rfl⟩

/-- C1: under a policy with `max_attempts = 2`, an operation failing with the
same transient error on every attempt is invoked exactly 2 times and the
original error is then re-raised unchanged — same error kind and same
message, never wrapped or masked (the result is the very error value `e`). -/
theorem retry_exhaustion_reraises (op : Nat → Except PyErr α) (e : PyErr)
    (min_wait max_wait : Rat) (hfail : ∀ n, op n = .error e)
    (hretry : is_retryable_error e = true) :
    execute_with_retry op 2 min_wait max_wait = (.error e, 2) := by
  show retryFrom op 1 2 = (.error e, 2)
  have h2 : (2 : Nat) = 0 + 2 := rfl
  rw [h2, retryFrom]
  simp [hfail, hretry, retryFrom]

/-- Witness for C1: an operation that always fails with
`ConnectionError "Permanent error"` under `max_attempts = 2`. -/
theorem retry_exhaustion_reraises_witness :
    execute_with_retry
        (fun _ => (.error (.connectionError "Permanent error") :
          Except PyErr String)) 2 1 2
      = (.error (.connectionError "Permanent error"), 2) :=
  retry_exhaustion_reraises _ _ 1 2 (fun _ => rfl) rfl

/-- C6: under a policy with `max_attempts = 3`, an operation failing with a
transient error on attempts 1 and 2 and succeeding with value `v` on attempt
3 is invoked exactly 3 times and the successful value is returned to the
caller — the returned outcome `.ok v` is exactly what an untried success
returns, so nothing besides logging indicates that retries occurred. -/
theorem retry_success_path (op : Nat → Except PyErr α) (e₁ e₂ : PyErr)
    (v : α) (min_wait max_wait : Rat) (h1 : op 1 = .error e₁)
    (h2 : op 2 = .error e₂) (h3 : op 3 = .ok v)
    (hr1 : is_retryable_error e₁ = true)
    (hr2 : is_retryable_error e₂ = true) :
    execute_with_retry op 3 min_wait max_wait = (.ok v, 3) := by
  show retryFrom op 1 3 = (.ok v, 3)
  have e3 : (3 : Nat) = 1 + 2 := rfl
  have e2 : (1 + 1 : Nat) = 0 + 2 := rfl
  rw [e3, retryFrom]
  simp only [h1, hr1, if_true]
  rw [e2, retryFrom]
  simp [h2, hr2, h3, retryFrom]

/-- Witness for C6: fails with `ConnectionError "Temporary error"` on the
first two attempts and returns `"success"` on the third. -/
theorem retry_success_path_witness :
    execute_with_retry
        (fun n => if n < 3
          then (.error (.connectionError "Temporary error") :
            Except PyErr String)
          else .ok "success") 3 1 2
      = (.ok "success", 3) :=
  retry_success_path _ _ _ _ 1 2 rfl rfl rfl rfl rfl

/-- C3: every data operation (`load_task`, `submit_task`, `load_context`,
`update_task_state`) invoked on an instance in the disconnected state fails
immediately with the not-initialized `RuntimeError` — an error kind distinct
from connection failures — and attempts no I/O (0 store round-trips). -/
theorem not_connected_guard (s : PostgresStorage) (db : DB) (tid cid : UUID)
    (message : JsonValue) (new_id : UUID) (st : TaskState) (now : Nat)
    (h : s._engine = none) :
    load_task s db (.uuid tid) = (.error notInitError, 0)
    ∧ submit_task s db (.uuid cid) message new_id now
        = (.error notInitError, 0)
    ∧ load_context s db (.uuid cid) = (.error notInitError, 0)
    ∧ update_task_state s db (.uuid tid) st now = (.error notInitError, 0)
    ∧ (∀ m, notInitError ≠ PyErr.connectionError m) := by
  refine ⟨?_, ?_, ?_, ?_, fun m => by simp [notInitError]⟩
  · simp [load_task, h]
  · simp [submit_task, h]
  · simp [load_context, h]
  · simp [update_task_state, h]

/-- Witness for C3: a never-connected instance rejects all four data
operations with the not-initialized error and no I/O. -/
theorem not_connected_guard_witness :
    load_task storage0 db0 (.uuid 1) = (.error notInitError, 0)
    ∧ submit_task storage0 db0 (.uuid 2) .null 3 0
        = (.error notInitError, 0)
    ∧ load_context storage0 db0 (.uuid 2) = (.error notInitError, 0)
    ∧ update_task_state storage0 db0 (.uuid 1) .working 0
        = (.error notInitError, 0) := by
  have h := not_connected_guard storage0 db0 1 2 .null 3 .working 0 rfl
  exact ⟨h.1, h.2.1, h.2.2.1, h.2.2.2.1⟩

/-- C5: a non-identifier argument — `submit_task` with such a `context_id`,
`load_task`/`load_context` with such an id — fails with a validation
`TypeError` before any I/O (0 store round-trips), and validation errors are
never classified retryable, so they are never retried by the Retry Policy
Engine. -/
theorem type_guard_validation (s : PostgresStorage) (db : DB)
    (v : JsonValue) (message : JsonValue) (new_id : UUID) (now : Nat)
    (h : ∀ u : UUID, v ≠ .uuid u) :
    load_task s db v = (.error (.typeError "task_id must be UUID"), 0)
    ∧ submit_task s db v message new_id now
        = (.error (.typeError "context_id must be UUID"), 0)
    ∧ load_context s db v
        = (.error (.typeError "context_id must be UUID"), 0)
    ∧ (∀ m, is_retryable_error (.typeError m) = false) := by
  cases v with
  | uuid u => exact absurd rfl (h u)
  | str s' => exact ⟨rfl, rfl, rfl, fun _ => rfl⟩
  | int n => exact ⟨rfl, rfl, rfl, fun _ => rfl⟩
  | bool b => exact ⟨rfl, rfl, rfl, fun _ => rfl⟩
  | null => exact ⟨rfl, rfl, rfl, fun _ => rfl⟩
  | dict entries => exact ⟨rfl, rfl, rfl, fun _ => rfl⟩
  | list elems => exact ⟨rfl, rfl, rfl, fun _ => rfl⟩

/-- Witness for C5 at the unit tests' argument `"not-a-uuid"`. -/
theorem type_guard_validation_witness :
    load_task storage0 db0 (.str "not-a-uuid")
      = (.error (.typeError "task_id must be UUID"), 0)
    ∧ submit_task storage0 db0 (.str "not-a-uuid") .null 3 0
        = (.error (.typeError "context_id must be UUID"), 0)
    ∧ load_context storage0 db0 (.str "not-a-uuid")
        = (.error (.typeError "context_id must be UUID"), 0) := by
  have h := type_guard_validation storage0 db0 (.str "not-a-uuid") .null 3 0
    (fun u hu => JsonValue.noConfusion hu)
  exact ⟨h.1, h.2.1, h.2.2.1⟩

/-- C7: `update_task_state` rejects every transition outside the legal edge
set {submitted→working, working→input-required, input-required→working,
working→completed, working→failed, submitted→cancelled, working→cancelled};
on every accepted transition the state is updated and `state_timestamp` is
refreshed to the current time, so the timestamp is monotonically
non-decreasing whenever the clock is. -/
theorem task_state_machine (s : PostgresStorage) (db : DB) (tid : UUID)
    (row : Row) (new_state : TaskState) (now : Nat)
    (heng : s._engine = some ()) (hfind : findRow db tid = some row) :
    (legal_transition row.state new_state = false →
      update_task_state s db (.uuid tid) new_state now
        = (.error (.valueError "Invalid state transition"), 1))
    ∧ (legal_transition row.state new_state = true →
      ∃ t db2,
        update_task_state s db (.uuid tid) new_state now = (.ok (t, db2), 1)
        ∧ t.status.state = new_state
        ∧ t.status.timestamp = now
        ∧ (row.state_timestamp ≤ now →
            row.state_timestamp ≤ t.status.timestamp))
    ∧ (∀ a b : TaskState, legal_transition a b = true ↔
        (a, b) ∈ [(TaskState.submitted, TaskState.working),
          (TaskState.working, TaskState.input_required),
          (TaskState.input_required, TaskState.working),
          (TaskState.working, TaskState.completed),
          (TaskState.working, TaskState.failed),
          (TaskState.submitted, TaskState.cancelled),
          (TaskState.working, TaskState.cancelled)]) := by
  refine ⟨fun hl => ?_, fun hl => ?_, fun a b => by cases a <;> cases b <;> decide⟩
  · simp [update_task_state, heng, hfind, hl]
  · have heq : update_task_state s db (.uuid tid) new_state now
        = (.ok (_row_to_task (Row.mk row.id row.context_id row.kind new_state
              now row.history row.artifacts row.metadata),
            DB.mk (replaceRow db.tasks (Row.mk row.id row.context_id row.kind
              new_state now row.history row.artifacts row.metadata))
              db.contexts), 1) := by
      simp [update_task_state, heng, hfind, hl]
    exact ⟨_, _, heq, rfl, rfl, fun hle => hle⟩

/-- Witness for C7: on the store `db1`, the legal edge set instance
submitted→working is accepted (shown through the theorem's edge-set
characterization) and submitted→completed is rejected. -/
theorem task_state_machine_witness :
    update_task_state storage1 db1 (.uuid 1) .completed 5
      = (.error (.valueError "Invalid state transition"), 1)
    ∧ (legal_transition .submitted .working = true ↔
        (TaskState.submitted, TaskState.working)
          ∈ [(TaskState.submitted, TaskState.working),
            (TaskState.working, TaskState.input_required),
            (TaskState.input_required, TaskState.working),
            (TaskState.working, TaskState.completed),
            (TaskState.working, TaskState.failed),
            (TaskState.submitted, TaskState.cancelled),
            (TaskState.working, TaskState.cancelled)]) := by
  have h := task_state_machine storage1 db1 1 exRow .completed 5 rfl rfl
  exact ⟨h.1 rfl, h.2.2 .submitted .working⟩

/-- C8: the row-to-task mapping maps `id`, `context_id` and `kind` directly,
nests `state` and `state_timestamp` into the `status` object, and coerces
`history`/`artifacts` to ordered sequences and `metadata` to a mapping that
are never null: absent or empty columns become the empty sequence / empty
mapping. -/
theorem row_to_task_mapping (row : Row) :
    (_row_to_task row).id = row.id
    ∧ (_row_to_task row).context_id = row.context_id
    ∧ (_row_to_task row).kind = row.kind
    ∧ (_row_to_task row).status.state = row.state
    ∧ (_row_to_task row).status.timestamp = row.state_timestamp
    ∧ (_row_to_task row).history = row.history.getD []
    ∧ (_row_to_task row).artifacts = row.artifacts.getD []
    ∧ (_row_to_task row).metadata = row.metadata.getD []
    ∧ ((row.history = none ∨ row.history = some []) →
        (_row_to_task row).history = [])
    ∧ ((row.artifacts = none ∨ row.artifacts = some []) →
        (_row_to_task row).artifacts = [])
    ∧ ((row.metadata = none ∨ row.metadata = some []) →
        (_row_to_task row).metadata = []) := by
  refine ⟨rfl, rfl, rfl, rfl, rfl, rfl, rfl, rfl, ?_, ?_, ?_⟩ <;>
    rintro (h | h) <;> simp [_row_to_task, h]

/-- Witness for C8: the row `exRow` (state `submitted`, empty collections)
maps to a Task with `status.state = submitted`, empty-list `history` and
`artifacts`, and empty-mapping `metadata`. -/
theorem row_to_task_mapping_witness :
    (_row_to_task exRow).status.state = TaskState.submitted
    ∧ (_row_to_task exRow).history = []
    ∧ (_row_to_task exRow).artifacts = []
    ∧ (_row_to_task exRow).metadata = [] := by
  obtain ⟨h1, h2, h3, h4, h5, h6, h7, h8, h9, h10, h11⟩ :=
    row_to_task_mapping exRow
  exact ⟨h4.trans rfl, h9 (Or.inr rfl), h10 (Or.inr rfl), h11 (Or.inr rfl)⟩
